import Mathlib

/-!
Verification of the Skill-Repo validation-and-scoring engine.

This file gives a shallow embedding of the parts of the repository that the
claims talk about:

* `src/skill-documentation-enhancer/scripts/doc_analyzer.py`
  (class `SkillDocAnalyzer`): frontmatter/section parsing, the four
  sub-scorers, gap/suggestion generation, `analyze` and the overall
  percentage computed in `print_report`;
* `src/package_skill.py` (class `SkillValidator`): the hard/soft rule
  pipeline behind `validate`;
* `src/forge.py` (`SkillForge.lint`): the companion-directory suggestions.

Python strings are modelled as Lean `String` (working over `String.data`,
i.e. lists of code points, which matches Python's code-point indexing and
`len`).  Python ints are `Int`/`Nat` (arbitrary precision in both).  The
file system is modelled by explicit state records listing what the scripts
read.  `yaml.safe_load` is an uninterpreted parameter function.  CPython's
IEEE-754 double arithmetic in `print_report` is modelled separately and
exactly with rationals where a claim depends on it.
-/

/-! ## Basic string helpers (Python `str` operations, over code points) -/

/-- Model of Python `s.startswith(p)` / an anchored regex literal:
`p.data` is a list prefix of `s.data`. -/
def strStarts (p s : String) : Bool := p.data.isPrefixOf s.data

/-- Model of Python `pat in s` (substring containment), on lists. -/
def containsL (pat : List Char) : List Char → Bool
  | [] => pat.isEmpty
  | a :: t => pat.isPrefixOf (a :: t) || containsL pat t

/-- Model of Python `pat in s` (substring containment). -/
def containsStr (s pat : String) : Bool := containsL pat.data s.data

/-- Python `len(s)` counts code points. -/
def strLen (s : String) : Nat := s.data.length

/-- Python `s.lower()` (code-point-wise; the analyzer only compares ASCII
keywords, for which this matches CPython). -/
def strLower (s : String) : String := String.mk (s.data.map Char.toLower)

/-- Python whitespace characters stripped by `str.strip()`. -/
def isPyWs (c : Char) : Bool :=
  (c = ' ') || (c = '\t') || (c = '\n') || (c = '\r') || (c = '\x0b') || (c = '\x0c')

/-- Python `s.strip()`. -/
def strStrip (s : String) : String :=
  String.mk (((s.data.dropWhile isPyWs).reverse.dropWhile isPyWs).reverse)

/-- Python `s[n:]` (drop the first `n` code points). -/
def strDropN (s : String) (n : Nat) : String := String.mk (s.data.drop n)

/-- Python `s[:n]` (take the first `n` code points). -/
def strTakeN (s : String) (n : Nat) : String := String.mk (s.data.take n)

/-- Split a list of characters on a separator character; mirrors Python
`s.split(c)` (always at least one part, empty parts kept). -/
def splitOnChar (c : Char) : List Char → List (List Char)
  | [] => [[]]
  | a :: t =>
    match splitOnChar c t with
    | [] => [[a]]
    | h :: r => if a = c then [] :: h :: r else (a :: h) :: r

/-- Python `s.split('\n')`. -/
def strLines (s : String) : List String := (splitOnChar '\n' s.data).map String.mk

/-- Join lists of characters with a newline between them ( `'\n'.join` ). -/
def interNL : List (List Char) → List Char
  | [] => []
  | [x] => x
  | x :: y :: t => x ++ '\n' :: interNL (y :: t)

/-- Python `'\n'.join(lines)`. -/
def joinLines (ls : List String) : String := String.mk (interNL (ls.map String.data))

/-- Join strings with `", "` between them ( `', '.join` ). -/
def interComma : List String → String
  | [] => ""
  | [x] => x
  | x :: y :: t => x ++ ", " ++ interComma (y :: t)

/-- Split at the first occurrence of a character: Python `s.split(c, 1)`
when the character occurs.  Returns the parts before and after it. -/
def splitFirstCharL (c : Char) : List Char → Option (List Char × List Char)
  | [] => none
  | a :: t =>
    if a = c then some ([], t)
    else (splitFirstCharL c t).map (fun p => (a :: p.1, p.2))

/-- Count non-overlapping occurrences of `pat` left to right, as Python
`s.count(pat)` does for a non-empty `pat`.  The extra `skip` argument keeps
the recursion structural: after a match the scanner skips the rest of the
matched text. -/
def countOccAux (pat : List Char) : List Char → Nat → Nat
  | [], _ => 0
  | _ :: t, k + 1 => countOccAux pat t k
  | a :: t, 0 =>
    if pat.isPrefixOf (a :: t) then 1 + countOccAux pat t (pat.length - 1)
    else countOccAux pat t 0

/-- Python `s.count(pat)` for non-empty `pat`. -/
def countOccStr (s pat : String) : Nat := countOccAux pat.data s.data 0

/-! ## doc_analyzer.py : parsing -/

/-- Association-list dictionary with Python `dict` update semantics:
inserting an existing key overwrites its value in place (last write wins),
a new key is appended. -/
def dinsert (k v : String) : List (String × String) → List (String × String)
  | [] => [(k, v)]
  | (k1, v1) :: t => if k1 = k then (k1, v) :: t else (k1, v1) :: dinsert k v t

/-- Python `key in dict` on the association list. -/
def hasKey (k : String) (d : List (String × String)) : Bool := d.any (fun p => p.1 = k)

/-- Find the lines strictly before the first line that starts with `---`;
`none` when no such line exists.  Used for the closing frontmatter
delimiter of the regex in `_parse_frontmatter`. -/
def closeSplit : List String → Option (List String)
  | [] => none
  | l :: ls => if strStarts "---" l then some [] else (closeSplit ls).map (l :: ·)

/-- Parse the `key: value` lines of the frontmatter block
(`_parse_frontmatter`, lines 40-45): lines without a colon are ignored,
the split is at the first colon, key and value are stripped, and a
duplicated key keeps the last value. -/
def fmParse (ls : List String) : List (String × String) :=
  ls.foldl
    (fun d line =>
      match splitFirstCharL ':' line.data with
      | some p => dinsert (strStrip (String.mk p.1)) (strStrip (String.mk p.2)) d
      | none => d)
    []

/-- `SkillDocAnalyzer._parse_frontmatter`: the regex
`re.search(r'^---\n(.*?)\n---', content, re.DOTALL)` matches exactly when
the text starts with the line `---` and some strictly later line starts
with `---`; the (lazily minimal) group is the lines strictly between.
No match yields the empty mapping. -/
def parseFrontmatter (content : String) : List (String × String) :=
  if strStarts "---\n" content then
    match strLines content with
    | _ :: l1 :: rest =>
      match closeSplit rest with
      | some pre => fmParse (l1 :: pre)
      | none => []
    | _ => []
  else []

/-- Flush the current section into the dictionary, as the
`if current_section: sections[current_section] = ...` steps of
`_parse_sections` do.  Python truthiness: `None` and the empty string are
both falsy, so an empty section title is silently dropped. -/
def sflush (cur : Option String) (acc : List String) (d : List (String × String)) :
    List (String × String) :=
  match cur with
  | none => d
  | some c => if c = "" then d else dinsert c (joinLines acc) d

/-- The line loop of `SkillDocAnalyzer._parse_sections` (lines 53-63):
a line starting with `## ` begins a new named section (title is the rest
of the line, stripped); every other line is appended to the current
section when one is open. -/
def sectionsLoop :
    List String → Option String → List String → List (String × String) →
    List (String × String)
  | [], cur, acc, d => sflush cur acc d
  | l :: ls, cur, acc, d =>
    if strStarts "## " l then
      sectionsLoop ls (some (strStrip (strDropN l 3))) [] (sflush cur acc d)
    else
      match cur with
      | some c =>
        if c = "" then sectionsLoop ls cur acc d
        else sectionsLoop ls cur (acc ++ [l]) d
      | none => sectionsLoop ls cur acc d

/-- `SkillDocAnalyzer._parse_sections`. -/
def parseSections (content : String) : List (String × String) :=
  sectionsLoop (strLines content) none [] []

/-! ## doc_analyzer.py : the four sub-scorers -/

/-- Trigger keywords of `_score_frontmatter` (line 115). -/
def triggerKeywords : List String := ["when", "activated by", "use for", "trigger"]

/-- Python `any(kw in desc.lower() for kw in trigger_keywords)`. -/
def hasTriggerKw (desc : String) : Bool :=
  triggerKeywords.any (fun kw => containsStr (strLower desc) kw)

/-- `SkillDocAnalyzer._score_frontmatter` (lines 87-123): +5 for `name`,
and for a present description +5, +5 if longer than 50, -5 if it contains
`TODO`, +5 if it contains a trigger keyword.  Returns
`(score, max_score, issues)`. -/
def scoreFrontmatter (fm : List (String × String)) : Int × Int × List String :=
  let s1 : Int := if hasKey "name" fm then 5 else 0
  let i1 : List String := if hasKey "name" fm then [] else ["Missing 'name' field in frontmatter"]
  match List.lookup "description" fm with
  | some desc =>
    let s2 := s1 + 5
    let s3 := if 50 < strLen desc then s2 + 5 else s2
    let i3 := if 50 < strLen desc then i1 else i1 ++ ["Description too short (< 50 chars)"]
    let s4 := if containsStr desc "TODO" then s3 - 5 else s3
    let i4 := if containsStr desc "TODO" then i3 ++ ["Description contains TODO placeholder"] else i3
    let s5 := if hasTriggerKw desc then s4 + 5 else s4
    let i5 := if hasTriggerKw desc then i4 else i4 ++ ["Description lacks clear trigger terms"]
    (s5, 20, i5)
  | none => (s1, 20, i1 ++ ["Missing 'description' field in frontmatter"])

/-- Checklist of `_score_structure` (lines 131-137).  The source writes
`('Purpose' or 'Overview', 5)` for the first entry; Python's `or` on a
non-empty string literal evaluates to its left operand, so the entry is
`('Purpose', 5)`. -/
def recommendedSections : List (String × Int) :=
  [("Purpose", 5), ("Usage", 5), ("Bundled Resources", 5),
   ("Best Practices", 5), ("Troubleshooting", 5)]

/-- `SkillDocAnalyzer._score_structure` (lines 125-145). -/
def scoreStructure (sections : List (String × String)) : Int × Int × List String :=
  let r :=
    recommendedSections.foldl
      (fun (acc : Int × List String) p =>
        if hasKey p.1 sections then (acc.1 + p.2, acc.2)
        else (acc.1, acc.2 ++ ["Missing recommended section: " ++ p.1]))
      (0, [])
  (r.1, 25, r.2)

/-- Counter for `re.findall(r'```.*?```', content, re.DOTALL)`: scans left
to right, pairing each fence opener with the next fence, exactly as the
lazy regex does.  The `skip` argument keeps recursion structural. -/
def pairScanAux : List Char → Bool → Nat → Nat
  | [], _, _ => 0
  | _ :: t, inside, k + 1 => pairScanAux t inside k
  | a :: t, inside, 0 =>
    if ("```".data).isPrefixOf (a :: t) then
      if inside then 1 + pairScanAux t false 2 else pairScanAux t true 2
    else pairScanAux t inside 0

/-- Number of fenced code blocks found by `_score_examples` (line 154). -/
def codeBlockCount (content : String) : Nat := pairScanAux content.data false 0

/-- `SkillDocAnalyzer._score_examples` (lines 147-179).  `scripts` is the
list of bundled script file names (`_find_scripts`). -/
def scoreExamples (content : String) (scripts : List String) : Int × Int × List String :=
  let nb := codeBlockCount content
  let s1 : Int := if nb = 0 then 0 else if nb = 1 then 10 else if nb = 2 then 20 else 30
  let i1 : List String :=
    if nb = 0 then ["No code examples found"]
    else if nb = 1 then ["Only one code example (consider adding more use cases)"]
    else []
  let i2 :=
    if scripts.isEmpty then i1
    else
      let documented := (scripts.filter (fun n => containsStr content n)).length
      if documented = 0 then i1 ++ ["No examples for bundled scripts"]
      else if documented < scripts.length then
        i1 ++ ["Only " ++ toString documented ++ "/" ++ toString scripts.length ++
               " scripts have examples"]
      else i1
  (s1, 30, i2)

/-- Vague filler terms of `_score_clarity` (line 194). -/
def vagueTerms : List String := ["something", "things", "stuff", "etc."]

/-- `SkillDocAnalyzer._score_clarity` (lines 181-206): start at 20, deduct
`min(10, 2*todo_count)`, deduct 5 for more than three vague terms, add a
5-point bonus for a "When to Use" cue. -/
def scoreClarity (content : String) (sections : List (String × String)) :
    Int × Int × List String :=
  let todo := countOccStr (strLower content) "todo"
  let s1 : Int := if 0 < todo then 20 - min 10 (2 * (todo : Int)) else 20
  let i1 : List String :=
    if 0 < todo then
      ["Found " ++ toString todo ++ " TODO markers (incomplete documentation)"]
    else []
  let vague := (vagueTerms.map (fun t => countOccStr (strLower content) t)).sum
  let s2 := if 3 < vague then s1 - 5 else s1
  let i2 :=
    if 3 < vague then
      i1 ++ ["Contains vague language (" ++ toString vague ++ " instances)"]
    else i1
  let bonus := hasKey "When to Use" sections || containsStr content "When to use"
  let s3 := if bonus then s2 + 5 else s2
  let i3 := if bonus then i2 else i2 ++ ["No 'When to Use' guidance"]
  (s3, 25, i3)

/-! ## doc_analyzer.py : gaps, suggestions, analyze, print_report -/

/-- `SkillDocAnalyzer._identify_gaps` (lines 208-230).  `hasRefsMd` models
`refs_dir.exists() and list(refs_dir.glob("*.md"))`. -/
def identifyGaps (content : String) (sections : List (String × String))
    (scripts : List String) (hasRefsMd : Bool) : List String :=
  let g1 :=
    if !containsStr (strLower content) "trigger" && !containsStr (strLower content) "activated"
    then ["No clear activation triggers documented"] else []
  let g2 :=
    if !hasKey "Troubleshooting" sections && !containsStr (strLower content) "troubleshoot"
    then ["No troubleshooting section"] else []
  let g3 :=
    if !scripts.isEmpty && !containsStr content "scripts/"
    then ["Scripts exist but aren't documented"] else []
  let g4 :=
    if hasRefsMd && !containsStr content "references/"
    then ["Reference files exist but aren't documented"] else []
  g1 ++ g2 ++ g3 ++ g4

/-- `SkillDocAnalyzer._generate_suggestions` (lines 232-270). -/
def generateSuggestions (content : String) (fm sections : List (String × String))
    (scripts : List String) : List String :=
  let s1 :=
    match List.lookup "description" fm with
    | some desc =>
      if strLen desc < 100 then
        ["Expand description to ~100-150 chars (currently " ++ toString (strLen desc) ++
         "). Include specific trigger terms and use cases."]
      else []
    | none => []
  let s2 :=
    if codeBlockCount content < 2 then
      ["Add more usage examples: basic use case, intermediate, and advanced scenarios"]
    else []
  let s3 :=
    if !hasKey "Troubleshooting" sections then
      ["Add Troubleshooting section with common issues and solutions"]
    else []
  let s4 :=
    if !hasKey "Best Practices" sections then
      ["Add Best Practices section with DO/DON'T guidance"]
    else []
  let s5 :=
    (scripts.filter (fun n => !containsStr content n)).map
      (fun n => "Document script '" ++ n ++ "' with usage examples")
  s1 ++ s2 ++ s3 ++ s4 ++ s5

/-- The dictionary returned by `SkillDocAnalyzer.analyze` (lines 75-85). -/
structure Analysis where
  frontmatter_score : Int × Int × List String
  structure_score : Int × Int × List String
  example_score : Int × Int × List String
  clarity_score : Int × Int × List String
  overall_score : Int
  gaps : List String
  suggestions : List String
  deriving Repr, DecidableEq

/-- `SkillDocAnalyzer.analyze`: the document is read once; frontmatter and
sections are derived from the content, `scripts` and `hasRefsMd` model the
companion directory listings.  The source stores the literal `0` in
`'overall_score'` with the comment "Calculated below". -/
def analyze (content : String) (scripts : List String) (hasRefsMd : Bool) : Analysis :=
  let fm := parseFrontmatter content
  let sections := parseSections content
  { frontmatter_score := scoreFrontmatter fm
    structure_score := scoreStructure sections
    example_score := scoreExamples content scripts
    clarity_score := scoreClarity content sections
    overall_score := 0
    gaps := identifyGaps content sections scripts hasRefsMd
    suggestions := generateSuggestions content fm sections scripts }

/-- `total_score` of `print_report` (lines 277-282). -/
def totalScore (a : Analysis) : Int :=
  a.frontmatter_score.1 + a.structure_score.1 + a.example_score.1 + a.clarity_score.1

/-- `total_max` of `print_report` (lines 283-288). -/
def totalMax (a : Analysis) : Int :=
  a.frontmatter_score.2.1 + a.structure_score.2.1 + a.example_score.2.1 + a.clarity_score.2.1

/-- Python `int(q)` on a real value: truncation toward zero. -/
def pyInt (q : ℚ) : Int := if q < 0 then Int.ceil q else Int.floor q

/-- `overall_pct = int((total_score / total_max) * 100)` (line 289),
modelled with exact rational arithmetic.  (CPython evaluates this with
IEEE-754 doubles; see the double-rounding model below for the claim that
depends on the difference.) -/
def overallPct (score max : Int) : Int := pyInt (((score : ℚ) / (max : ℚ)) * 100)

/-- The percentage printed by `print_report` for an analysis. -/
def printedPct (a : Analysis) : Int := overallPct (totalScore a) (totalMax a)

/-- Classification bands of `print_report` (lines 297-302). -/
def classifyPct (pct : Int) : String :=
  if 80 ≤ pct then "excellent" else if 60 ≤ pct then "good" else "needs improvement"

/-! ## package_skill.py : SkillValidator

The validator reads `SKILL.md` and probes a handful of paths.  The state
record lists exactly what it reads.  `yaml.safe_load` is passed in as an
uninterpreted parameter producing an abstract YAML value. -/

/-- A YAML scalar as far as `_validate_frontmatter` inspects it:
a Python `str` or anything else (`isinstance(x, str)` fails). -/
inductive YVal where
  | str (s : String)
  | other
  deriving Repr, DecidableEq

/-- A parsed YAML document: a dictionary (string keys, in document order,
no duplicates surviving `yaml.safe_load`) or any non-dict value. -/
inductive YamlDoc where
  | dict (entries : List (String × YVal))
  | nonDict
  deriving Repr, DecidableEq

/-- What `SkillValidator` reads from the file system. -/
structure SkillDir where
  skillMdExists : Bool
  /-- The text of `SKILL.md` (meaningful only when it exists). -/
  content : String
  readmeExists : Bool
  installationGuideExists : Bool
  quickReferenceExists : Bool
  changelogExists : Bool
  contributingExists : Bool
  /-- Relative paths that exist under the skill directory, for the
  cross-reference check. -/
  existingFiles : List String
  deriving Repr, DecidableEq

/-- Split at the first occurrence of the substring `pat`: parts before and
after it, or `none` when absent. -/
def splitSubOnce (pat : List Char) : List Char → Option (List Char × List Char)
  | [] => if pat.isEmpty then some ([], []) else none
  | a :: t =>
    if pat.isPrefixOf (a :: t) then some ([], (a :: t).drop pat.length)
    else (splitSubOnce pat t).map (fun p => (a :: p.1, p.2))

/-- Python `content.split("---", 2)`: at most three parts. -/
def pySplit2 (s pat : String) : List String :=
  match splitSubOnce pat.data s.data with
  | none => [s]
  | some (a, r1) =>
    match splitSubOnce pat.data r1 with
    | none => [String.mk a, String.mk r1]
    | some (b, r2) => [String.mk a, String.mk b, String.mk r2]

/-- Lookup in the parsed YAML dictionary ( `frontmatter["name"]` ). -/
def ylookup (k : String) : List (String × YVal) → Option YVal
  | [] => none
  | (k1, v1) :: t => if k1 = k then some v1 else ylookup k t

/-- `SkillValidator._validate_frontmatter` (lines 52-107): the hard rules
raise `ValidationError` (modelled by `Except.error` carrying the message);
on success the collected soft warnings are returned in order.  The extra
fields come from a Python `set` difference whose iteration order is
unspecified; the model keeps document order, and no claim depends on it. -/
def frontmatterCheck (content : String) (safeLoad : String → Except String YamlDoc) :
    Except String (List String) :=
  if !strStarts "---" content then
    .error "SKILL.md must start with YAML frontmatter (---)"
  else
    let parts := pySplit2 content "---"
    if parts.length < 3 then .error "Invalid YAML frontmatter format"
    else
      match safeLoad (parts.getD 1 "") with
      | .error e => .error ("Invalid YAML frontmatter: " ++ e)
      | .ok .nonDict => .error "Frontmatter must be a YAML dictionary"
      | .ok (.dict entries) =>
        match ylookup "name" entries with
        | none => .error "Frontmatter missing required 'name' field"
        | some nameV =>
          match ylookup "description" entries with
          | none => .error "Frontmatter missing required 'description' field"
          | some descV =>
            match nameV with
            | .other => .error "'name' field must be a non-empty string"
            | .str nm =>
              if strStrip nm = "" then .error "'name' field must be a non-empty string"
              else
                match descV with
                | .other => .error "'description' field must be a non-empty string"
                | .str ds =>
                  if strStrip ds = "" then
                    .error "'description' field must be a non-empty string"
                  else
                    let w1 :=
                      if containsStr ds "TODO" || containsStr ds "TODO:" then
                        ["Description contains TODO placeholders"]
                      else []
                    let w2 :=
                      if strLen ds < 50 then
                        ["Description is quite short. Consider adding more detail about what the skill does and when to use it."]
                      else []
                    let extra := (entries.map Prod.fst).filter
                      (fun k => k ≠ "name" && k ≠ "description")
                    let w3 :=
                      if !extra.isEmpty then
                        ["Frontmatter contains extra fields: " ++ interComma extra ++
                         ". Only 'name' and 'description' are required."]
                      else []
                    .ok (w1 ++ w2 ++ w3)

/-- The warning appended by `_validate_structure` when `README.md` exists. -/
def readmeWarning : String :=
  "README.md found. Skills should only contain SKILL.md, not additional documentation files. Consider moving content to SKILL.md."

/-- Warnings of `_validate_structure` (lines 109-116). -/
def structureWarnings (st : SkillDir) : List String :=
  if st.readmeExists then [readmeWarning] else []

/-- Errors of `_validate_structure` (lines 118-131): the fixed deny-list of
auxiliary files, appended (not raised) in list order. -/
def structureErrors (st : SkillDir) : List String :=
  (([("INSTALLATION_GUIDE.md", st.installationGuideExists),
     ("QUICK_REFERENCE.md", st.quickReferenceExists),
     ("CHANGELOG.md", st.changelogExists),
     ("CONTRIBUTING.md", st.contributingExists)].filter Prod.snd).map
    (fun p => p.1 ++ " found. Skills should not contain auxiliary documentation files."))

/-- Try to read a markdown link `[text](target)` at the head of the input,
as the regex `\[([^\]]+)\]\(([^)]+)\)` does at a fixed position: the text
runs to the first `]` (non-empty), the target to the first `)`
(non-empty).  Returns the two groups and the matched length. -/
def mdLinkAt : List Char → Option (List Char × List Char × Nat)
  | '[' :: r =>
    let t := r.takeWhile (fun c => c ≠ ']')
    if t.isEmpty then none
    else
      match r.drop t.length with
      | ']' :: '(' :: r2 =>
        let u := r2.takeWhile (fun c => c ≠ ')')
        if u.isEmpty then none
        else
          match r2.drop u.length with
          | ')' :: _ => some (t, u, 1 + t.length + 2 + u.length + 1)
          | _ => none
      | _ => none
  | _ => none

/-- All matches of the markdown-link pattern, left to right and
non-overlapping, as `re.findall` produces them. -/
def findMdLinks : List Char → Nat → List (String × String)
  | [], _ => []
  | _ :: t, k + 1 => findMdLinks t k
  | a :: t, 0 =>
    match mdLinkAt (a :: t) with
    | some (x, u, len) => (String.mk x, String.mk u) :: findMdLinks t (len - 1)
    | none => findMdLinks t 0

/-- The backtick character (code point 96). -/
def backtickChar : Char := Char.ofNat 96

/-- The recognised extensions of the code-span pattern, with a leading dot. -/
def extOf (t : List Char) : Option String :=
  (["py", "sh", "md", "txt"].find? (fun e => ('.' :: e.data).isSuffixOf t))

/-- Try to read a code-span file reference at the head of the input, as the
regex over backticks does: between two backticks, a non-empty
name, a dot and one of the four extensions.  Returns `(group1, group2)` =
(full filename, extension) and the matched length. -/
def tickAt (s : List Char) : Option (String × String × Nat) :=
  match s with
  | c :: r =>
    if c = backtickChar then
      let t := r.takeWhile (fun x => x ≠ backtickChar)
      match r.drop t.length with
      | c2 :: _ =>
        if c2 = backtickChar then
          match extOf t with
          | some ext => if ext.data.length + 2 ≤ t.length then
              some (String.mk t, ext, t.length + 2)
            else none
          | none => none
        else none
      | [] => none
    else none
  | [] => none

/-- All matches of the code-span pattern, left to right, non-overlapping. -/
def findTickRefs : List Char → Nat → List (String × String)
  | [], _ => []
  | _ :: t, k + 1 => findTickRefs t k
  | a :: t, 0 =>
    match tickAt (a :: t) with
    | some (x, e, len) => (x, e) :: findTickRefs t (len - 1)
    | none => findTickRefs t 0

/-- Deduplication preserving first occurrence.  Python collects the
references in a `set`, whose iteration order is unspecified; the model
fixes insertion order, and no claim depends on the order. -/
def dedupAux (seen : List String) : List String → List String
  | [] => []
  | a :: t => if seen.contains a then dedupAux seen t else a :: dedupAux (a :: seen) t

/-- `SkillValidator._check_file_references` (lines 133-165).  For both
patterns the code takes `match[1]`, i.e. the second regex group: the link
target for markdown links, but the bare extension (`py`, `sh`, `md`,
`txt`) for code spans. -/
def refsWarnings (st : SkillDir) : List String :=
  let fromLinks := (findMdLinks st.content.data 0).map Prod.snd
  let fromTicks := (findTickRefs st.content.data 0).map Prod.snd
  let raw := fromLinks ++ fromTicks
  let kept := raw.filter
    (fun f => !(strStarts "http://" f || strStarts "https://" f || strStarts "#" f))
  (dedupAux [] kept).filter (fun f => !st.existingFiles.contains f)
    |>.map (fun f => "Referenced file not found: " ++ f)

/-- `SkillValidator._check_token_budget` (lines 167-187).  Only `\n` is
modelled as a line separator in `splitlines`. -/
def budgetWarnings (st : SkillDir) : List String :=
  let tokens := strLen st.content / 4
  let w1 :=
    if 5000 < tokens then
      ["SKILL.md is large (~" ++ toString tokens ++
       " tokens). Consider moving content to reference files."]
    else []
  let parts := strLines st.content
  let lineCount := parts.length - (if parts.getLast? = some "" then 1 else 0)
  let w2 :=
    if 500 < lineCount then
      ["SKILL.md has " ++ toString lineCount ++
       " lines. Consider keeping it under 500 lines and using references."]
    else []
  w1 ++ w2

/-- `SkillValidator.validate` (lines 32-44): the checks run in order inside
one `try`; a raised `ValidationError` is caught, its message appended to
`errors`, and validation stops there.  `_validate_structure` appends its
errors without raising, so the later checks still run in that case. -/
def validateSkill (st : SkillDir) (safeLoad : String → Except String YamlDoc) :
    List String × List String :=
  if !st.skillMdExists then (["SKILL.md not found"], [])
  else
    match frontmatterCheck st.content safeLoad with
    | .error e => ([e], [])
    | .ok fmWarns =>
      (structureErrors st,
       fmWarns ++ structureWarnings st ++ refsWarnings st ++ budgetWarnings st)

/-! ## forge.py : SkillForge.lint -/

/-- The companion directories probed by `SkillForge.lint`:
`none` = directory absent, `some l` = directory present with listing `l`
(file names in directory order). -/
structure ForgeDir where
  scriptsDir : Option (List String)
  referencesDir : Option (List String)
  assetsDir : Option (List String)
  deriving Repr, DecidableEq

/-- The prefixes of the imperative-voice check (forge.py line 166). -/
def youPrefixes : List String := ["you should", "you can", "you must", "you will"]

/-- Issues of `SkillForge.lint` (lines 157-160): TODO placeholders. -/
def lintIssues (content : String) : List String :=
  let todo := countOccStr content "TODO"
  if 0 < todo then ["Found " ++ toString todo ++ " TODO placeholder(s)"] else []

/-- The fixed suggestion emitted for an empty or placeholder-only
`assets/` directory (forge.py line 201). -/
def assetsEmptySugg : String := "assets/ directory is empty - consider removing it"

/-- The fixed suggestion for an empty `scripts/` directory (line 190). -/
def scriptsEmptySugg : String := "scripts/ directory is empty - consider removing it"

/-- The fixed suggestion for an empty `references/` directory (line 195). -/
def refsEmptySugg : String := "references/ directory is empty - consider removing it"

/-- The prefix of the imperative-voice suggestion (lines 170-173). -/
def impSuggIntro : String := "Consider using imperative voice instead of 'you' language:\n"

/-- The pieces of the bold-formatting suggestion (lines 177-180). -/
def boldSuggIntro : String := "Lots of bold formatting ("

/-- Closing text of the bold-formatting suggestion. -/
def boldSuggOutro : String := " instances). Consider reducing for readability."

/-- Suggestions of `SkillForge.lint` (lines 162-201), in emission order:
imperative voice, heavy bold formatting, then empty `scripts/`,
`references/` and empty-or-placeholder-only `assets/` directories. -/
def lintSuggestions (content : String) (d : ForgeDir) : List String :=
  let nonImp :=
    ((strLines content).filter
        (fun l => youPrefixes.any (fun p => strStarts p (strStrip (strLower l))))).map
      (fun l => strTakeN l 60)
  let s1 :=
    if !nonImp.isEmpty then
      [impSuggIntro ++ joinLines ((nonImp.take 3).map (fun l => "    • " ++ l))]
    else []
  let boldCount := countOccStr content "**"
  let s2 :=
    if 40 < boldCount then [boldSuggIntro ++ toString (boldCount / 2) ++ boldSuggOutro]
    else []
  let s3 :=
    match d.scriptsDir with
    | some l => if l.isEmpty then [scriptsEmptySugg] else []
    | none => []
  let s4 :=
    match d.referencesDir with
    | some l => if l.isEmpty then [refsEmptySugg] else []
    | none => []
  let s5 :=
    match d.assetsDir with
    | some assets =>
      if assets.isEmpty || (assets.length = 1 && assets.headD "" = "README.md") then
        [assetsEmptySugg]
      else []
    | none => []
  s1 ++ s2 ++ s3 ++ s4 ++ s5

/-! ## CPython float model for `print_report`

`overall_pct = int((total_score / total_max) * 100)` runs in IEEE-754
binary64.  The model below rounds an exact rational to the nearest
representable double (round to nearest, ties to even); normal range only,
which covers every value arising from scores in `[0, 100]`. -/

/-- An exact fraction with explicit integer numerator and denominator
(denominator kept positive by construction), used so that the double
rounding below evaluates by pure integer arithmetic. -/
structure Frac where
  num : Int
  den : Int
  deriving Repr, DecidableEq

/-- Multiply a fraction by `2 ^ e` for an integer exponent. -/
def mulPow2 (q : Frac) (e : Int) : Frac :=
  if 0 ≤ e then ⟨q.num * 2 ^ e.toNat, q.den⟩ else ⟨q.num, q.den * 2 ^ (-e).toNat⟩

/-- `2 ^ e` as a fraction. -/
def pow2F (e : Int) : Frac := mulPow2 ⟨1, 1⟩ e

/-- Comparison `a ≤ b` of fractions with positive denominators. -/
def fracLe (a b : Frac) : Bool := a.num * b.den ≤ b.num * a.den

/-- Floor of a fraction with positive denominator. -/
def floorF (q : Frac) : Int := Int.fdiv q.num q.den

/-- Round-to-nearest-integer, ties to even, of a fraction with positive
denominator. -/
def rneF (q : Frac) : Int :=
  let f := floorF q
  let rnum := q.num - f * q.den
  if 2 * rnum < q.den then f
  else if q.den < 2 * rnum then f + 1
  else if f % 2 = 0 then f else f + 1

/-- Binade exponent: the `e` with `2 ^ e ≤ q < 2 ^ (e + 1)`, searched in a
range that covers every value reached by the percentage computation. -/
def binadeF (q : Frac) : Option Int :=
  ((List.range 200).map (fun i => (i : Int) - 100)).find?
    (fun e => fracLe (pow2F e) q && !fracLe (pow2F (e + 1)) q)

/-- Correctly rounded conversion of a non-negative fraction to an IEEE-754
binary64 value (53-bit significand, round to nearest, ties to even);
normal range only, which covers every value arising here.  Zero has no
binade and is returned unchanged. -/
def posDoubleF (q : Frac) : Frac :=
  match binadeF q with
  | some e => mulPow2 ⟨rneF (mulPow2 q (52 - e)), 1⟩ (e - 52)
  | none => q

/-- `int((score / max) * 100)` as CPython evaluates it for `0 ≤ score` and
`0 < max`: the true division is correctly rounded to a double, the product
by `100` is rounded again, and `int` truncates toward zero. -/
def floatPct (score max : Int) : Int :=
  let d1 := posDoubleF ⟨score, max⟩
  let d2 := posDoubleF ⟨d1.num * 100, d1.den⟩
  Int.tdiv d2.num d2.den

/-- The claim-side specification of the overall percentage:
`round(100 × Σpoints / Σmax)` with exact arithmetic. -/
def roundPct (score max : Int) : Int := round ((100 * (score : ℚ)) / (max : ℚ))

/-! ## Claims -/

/-- C1 (code bug): the printed overall percentage is claimed to equal
`round(100 × Σpoints / Σmax)`.  The document below (name present, no
description, one fenced code block, three `todo` markers, no recommended
sections) reaches a total of 29 out of the constant `Σmax = 100`, yet
CPython evaluates `int((29 / 100) * 100)` in binary64, where
`(29 / 100) * 100 = 28.999999999999996`, and truncates to 28, one below
`round(100 × 29 / 100) = 29`. -/
theorem overall_pct_truncated_below_round :
    totalScore (analyze "---\nname: demo\n---\n```x```\ntodo todo todo" [] false) = 29 ∧
    totalMax (analyze "---\nname: demo\n---\n```x```\ntodo todo todo" [] false) = 100 ∧
    floatPct 29 100 = 28 ∧ roundPct 29 100 = 29 := by
  refine ⟨by decide, by decide, ?_, ?_⟩
  · set_option maxRecDepth 4000 in decide
  · unfold roundPct; norm_num

/-- C10: `analyze` stores the literal `0` under `'overall_score'`; the
percentage that `print_report` prints is recomputed there from the four
sub-scores and is never written back into the analysis dictionary. -/
theorem analyze_overall_score_is_zero (content : String) (scripts : List String)
    (hasRefsMd : Bool) :
    (analyze content scripts hasRefsMd).overall_score = 0 ∧
    printedPct (analyze content scripts hasRefsMd) =
      overallPct (totalScore (analyze content scripts hasRefsMd))
        (totalMax (analyze content scripts hasRefsMd)) := ⟨rfl, rfl⟩

/-- C5, counterexample to the claim as stated: the claim says a section's
content stops at the next same-or-higher-level heading, so the top-level
heading line `# Top` after section `A` should terminate it and the content
of `A` would be `"body"`.  The parser only breaks on `## ` lines, so the
`# Top` line and everything after it are part of section `A`. -/
theorem section_swallows_top_level_heading :
    List.lookup "A" (parseSections "## A\nbody\n# Top\ntail") =
      some "body\n# Top\ntail" := by decide

/-- If one pattern is a list-prefix of another, any string starting with
the longer pattern starts with the shorter one. -/
theorem strStarts_mono {p q s : String} (h : p.data <+: q.data)
    (hq : strStarts q s = true) : strStarts p s = true := by
  unfold strStarts at hq ⊢
  rw [List.isPrefixOf_iff_prefix] at hq ⊢
  exact h.trans hq

/-- C3: when `SKILL.md` does not begin with the three-dash delimiter, the
analyzer's regex cannot match, so the parsed metadata is empty, and the
packager's `_validate_frontmatter` raises its dedicated hard error, which
`validate` catches: the error list is exactly that one message and no
warnings are collected. -/
theorem missing_delimiter_empty_metadata_one_error (st : SkillDir)
    (sl : String → Except String YamlDoc)
    (h1 : st.skillMdExists = true) (h2 : strStarts "---" st.content = false) :
    parseFrontmatter st.content = [] ∧
    validateSkill st sl = (["SKILL.md must start with YAML frontmatter (---)"], []) := by
  constructor
  · have h3 : strStarts "---\n" st.content = false := by
      cases hp : strStarts "---\n" st.content
      · rfl
      · have := strStarts_mono (p := "---") (q := "---\n") ⟨['\n'], rfl⟩ hp
        rw [h2] at this
        exact absurd this (by simp)
    unfold parseFrontmatter
    simp [h3]
  · unfold validateSkill frontmatterCheck
    simp [h1, h2]

/-- C3 witness: a document whose text is `hello`. -/
theorem missing_delimiter_witness :
    parseFrontmatter "hello" = [] ∧
    validateSkill ⟨true, "hello", false, false, false, false, false, []⟩
        (fun _ => .ok .nonDict) =
      (["SKILL.md must start with YAML frontmatter (---)"], []) :=
  missing_delimiter_empty_metadata_one_error
    ⟨true, "hello", false, false, false, false, false, []⟩
    (fun _ => .ok .nonDict) rfl (by decide)

/-- C2, counterexample to the claim as stated: a skill directory whose
frontmatter lacks the required `name` field and which also has a
`README.md`.  The missing-name hard rule is raised and caught, so
validation reports it, but the README soft rule (whose condition holds)
never runs: the warning list is empty, not "alongside the errors". -/
theorem hard_error_aborts_soft_rules :
    validateSkill ⟨true, "---\na\n---\nbody", true, false, false, false, false, []⟩
        (fun _ => .ok (.dict [("description", .str "hi")])) =
      (["Frontmatter missing required 'name' field"], []) ∧
    (⟨true, "---\na\n---\nbody", true, false, false, false, false, []⟩ : SkillDir).readmeExists
        = true ∧
    readmeWarning ∉
      (validateSkill ⟨true, "---\na\n---\nbody", true, false, false, false, false, []⟩
        (fun _ => .ok (.dict [("description", .str "hi")]))).2 := by
  refine ⟨by decide, rfl, by decide⟩

/-- C2 as amended: only the existence check and `_validate_frontmatter`
raise; when both pass, every later check runs to completion, so the
result's errors are exactly the extraneous-file errors and every soft
warning whose condition holds (frontmatter quality, README present,
unresolved file references, token/line size) is present alongside them. -/
theorem soft_rules_complete_when_frontmatter_ok (st : SkillDir)
    (sl : String → Except String YamlDoc) (ws : List String)
    (h1 : st.skillMdExists = true)
    (h2 : frontmatterCheck st.content sl = .ok ws) :
    (validateSkill st sl).1 = structureErrors st ∧
    ∀ w : String,
      (w ∈ ws ∨ w ∈ structureWarnings st ∨ w ∈ refsWarnings st ∨ w ∈ budgetWarnings st) →
      w ∈ (validateSkill st sl).2 := by
  unfold validateSkill
  rw [h1, h2]
  simp only [Bool.not_true, Bool.false_eq_true, if_false]
  refine ⟨by first | rfl | trivial, ?_⟩
  intro w hw
  simp only [List.mem_append]
  tauto

/-- C2 witness: a well-formed frontmatter together with a present
`README.md`; the README warning is reported alongside an (empty) error
list. -/
theorem soft_rules_complete_witness :
    (validateSkill ⟨true, "---\nx\n---\nbody", true, false, false, false, false, []⟩
        (fun _ => .ok (.dict [("name", .str "demo"),
          ("description",
           .str "This skill analyzes skill folders and is used when checking quality.")]))).1
      = structureErrors ⟨true, "---\nx\n---\nbody", true, false, false, false, false, []⟩ ∧
    readmeWarning ∈
      (validateSkill ⟨true, "---\nx\n---\nbody", true, false, false, false, false, []⟩
        (fun _ => .ok (.dict [("name", .str "demo"),
          ("description",
           .str "This skill analyzes skill folders and is used when checking quality.")]))).2 := by
  have h := soft_rules_complete_when_frontmatter_ok
    ⟨true, "---\nx\n---\nbody", true, false, false, false, false, []⟩
    (fun _ => .ok (.dict [("name", .str "demo"),
      ("description",
       .str "This skill analyzes skill folders and is used when checking quality.")]))
    [] rfl rfl
  exact ⟨h.1, h.2 readmeWarning (Or.inr (Or.inl (by decide)))⟩

/-- C4: with `hasKey "Purpose" sections = false`, the first checklist entry
(written `'Purpose' or 'Overview'` in the source, which Python evaluates
to `'Purpose'`) contributes nothing even when an `Overview` section is
present; the structure score is 5 points for each of the four remaining
recommended titles that are present. -/
theorem purpose_entry_ignores_overview (sections : List (String × String))
    (hov : hasKey "Overview" sections = true)
    (hpu : hasKey "Purpose" sections = false) :
    (scoreStructure sections).1 =
      (if hasKey "Usage" sections then 5 else 0) +
      (if hasKey "Bundled Resources" sections then 5 else 0) +
      (if hasKey "Best Practices" sections then 5 else 0) +
      (if hasKey "Troubleshooting" sections then 5 else 0) := by
  unfold scoreStructure recommendedSections
  simp only [List.foldl, hpu, if_false, Bool.false_eq_true]
  split_ifs <;> norm_num

/-- C4 witness: `Overview` and `Usage` present, `Purpose` absent; only the
`Usage` entry scores. -/
theorem purpose_entry_ignores_overview_witness :
    (scoreStructure [("Overview", "x"), ("Usage", "y")]).1 =
      (if hasKey "Usage" [("Overview", "x"), ("Usage", "y")] then 5 else 0) +
      (if hasKey "Bundled Resources" [("Overview", "x"), ("Usage", "y")] then 5 else 0) +
      (if hasKey "Best Practices" [("Overview", "x"), ("Usage", "y")] then 5 else 0) +
      (if hasKey "Troubleshooting" [("Overview", "x"), ("Usage", "y")] then 5 else 0) :=
  purpose_entry_ignores_overview [("Overview", "x"), ("Usage", "y")] (by decide) (by decide)

/-- C6: each sub-scorer's points stay within `[0, max_score]` for every
input: the frontmatter score's only deduction (-5 for a TODO) cannot
outweigh the +5 it follows, the structure and example scores only add, and
the clarity score starts at 20 and can lose at most 10 + 5 while gaining
at most 5. -/
theorem sub_scores_within_bounds (fm sections : List (String × String))
    (content : String) (scripts : List String) :
    (0 ≤ (scoreFrontmatter fm).1 ∧ (scoreFrontmatter fm).1 ≤ (scoreFrontmatter fm).2.1) ∧
    (0 ≤ (scoreStructure sections).1 ∧
      (scoreStructure sections).1 ≤ (scoreStructure sections).2.1) ∧
    (0 ≤ (scoreExamples content scripts).1 ∧
      (scoreExamples content scripts).1 ≤ (scoreExamples content scripts).2.1) ∧
    (0 ≤ (scoreClarity content sections).1 ∧
      (scoreClarity content sections).1 ≤ (scoreClarity content sections).2.1) := by
  refine ⟨?_, ?_, ?_, ?_⟩
  · rcases h : List.lookup "description" fm with _ | desc <;>
      simp only [scoreFrontmatter, h] <;> split_ifs <;> norm_num
  · unfold scoreStructure recommendedSections
    simp only [List.foldl]
    split_ifs <;> norm_num
  · unfold scoreExamples
    dsimp only
    split_ifs <;> norm_num
  · unfold scoreClarity
    dsimp only
    split_ifs <;> omega

/-- A description exactly 100 characters long containing the word
`trigger`: 93 filler characters followed by the keyword. -/
def descHundred : String := String.mk (List.replicate 93 'a' ++ "trigger".data)

/-- C7, counterexample to the claim as stated: the claim omits the `name`
requirement.  A frontmatter with only a 100-character, trigger-bearing,
TODO-free description scores 5 + 5 + 5 = 15, not 20. -/
theorem hundred_char_desc_without_name :
    strLen descHundred = 100 ∧
    containsStr (strLower descHundred) "trigger" = true ∧
    containsStr descHundred "TODO" = false ∧
    (scoreFrontmatter [("description", descHundred)]).1 = 15 := by
  refine ⟨by decide, by decide, by decide, by decide⟩

/-- C7 as amended: when the frontmatter also has a `name` field, a
100-character description containing `trigger` and no TODO gets the full
metadata score of 20 out of 20. -/
theorem full_metadata_score (fm : List (String × String)) (desc : String)
    (hname : hasKey "name" fm = true)
    (hdesc : List.lookup "description" fm = some desc)
    (hlen : strLen desc = 100)
    (htrig : containsStr (strLower desc) "trigger" = true)
    (htodo : containsStr desc "TODO" = false) :
    (scoreFrontmatter fm).1 = 20 ∧ (scoreFrontmatter fm).2.1 = 20 := by
  have h50 : 50 < strLen desc := by omega
  have ht : hasTriggerKw desc = true := by
    unfold hasTriggerKw triggerKeywords
    simp [htrig]
  simp only [scoreFrontmatter, hdesc, hname, h50, htodo, ht, if_true,
    Bool.false_eq_true, if_false]
  norm_num

/-- C7 witness: a concrete frontmatter with a name and the 100-character
description. -/
theorem full_metadata_score_witness :
    (scoreFrontmatter [("name", "demo"), ("description", descHundred)]).1 = 20 ∧
    (scoreFrontmatter [("name", "demo"), ("description", descHundred)]).2.1 = 20 :=
  full_metadata_score [("name", "demo"), ("description", descHundred)] descHundred
    (by decide) (by decide) (by decide) (by decide) (by decide)

/-- Python `int((t / 100) * 100)` is exactly `t` in exact rational
arithmetic: the division by the constant `total_max = 100` cancels. -/
theorem overallPct_at_100 (t : Int) : overallPct t 100 = t := by
  unfold overallPct pyInt
  have h : (((t : ℚ) / ((100 : Int) : ℚ)) * 100) = (t : ℚ) := by
    push_cast
    field_simp
  rw [h]
  split_ifs with hneg
  · exact Int.ceil_intCast t
  · exact Int.floor_intCast t

set_option maxRecDepth 1000000 in
set_option maxHeartbeats 4000000 in
/-- Adjacent-step monotonicity of the program's binary64 percentage over
the reachable integer totals: checked exhaustively for all totals below
100 by kernel evaluation of the exact double model. -/
theorem floatPct_step : ∀ n : Nat, n < 100 → floatPct n 100 ≤ floatPct (n + 1) 100 := by
  decide

/-- Monotonicity of the binary64 percentage over natural totals up to the
constant `total_max = 100`, by chaining the adjacent steps. -/
theorem floatPct_mono_nat :
    ∀ k : Nat, k ≤ 100 → ∀ m : Nat, m ≤ k →
      floatPct (m : Int) 100 ≤ floatPct (k : Int) 100 := by
  intro k
  induction k with
  | zero =>
    intro _ m hm
    have hm0 : m = 0 := Nat.le_zero.mp hm
    subst hm0
    exact le_refl _
  | succ k ih =>
    intro hk m hm
    rcases Nat.lt_or_ge m (k + 1) with hlt | hge
    · have hmk : m ≤ k := Nat.lt_succ_iff.mp hlt
      have h1 := ih (Nat.le_of_succ_le hk) m hmk
      have h2 := floatPct_step k (by omega)
      have hcast : ((k + 1 : Nat) : Int) = (k : Int) + 1 := by push_cast; ring
      rw [hcast]
      exact le_trans h1 h2
    · have hm1 : m = k + 1 := Nat.le_antisymm hm hge
      subst hm1
      exact le_refl _

/-- Monotonicity of the binary64 percentage over integer totals in
`[0, 100]`, the range every total of the four sub-scores lies in
(`sub_scores_within_bounds` bounds each sub-score by its max, and the four
maxes sum to 100). -/
theorem floatPct_mono_range (s t : Int) (h0 : 0 ≤ s) (hst : s ≤ t) (ht : t ≤ 100) :
    floatPct s 100 ≤ floatPct t 100 := by
  lift s to Nat using h0 with m
  lift t to Nat using (by omega : (0 : Int) ≤ t) with k
  have hm : m ≤ k := by exact_mod_cast hst
  have hk : k ≤ 100 := by exact_mod_cast ht
  exact floatPct_mono_nat k hk m hm

/-- C9: the percentage `print_report` actually computes — `floatPct`, the
exact model of CPython's `int((total / 100) * 100)` in IEEE-754 doubles —
is monotonically non-decreasing in each sub-score with the other three
held fixed, for sub-scores in the range the scorers can produce
(non-negative, with the total bounded by the constant `total_max = 100`).
Monotonicity survives the float truncation exhibited at C1 because every
stage of the computation (division, rounding, product, truncation) is
monotone; here it is verified exhaustively over the reachable totals. -/
theorem overall_pct_monotone_float (a b c x y : Int)
    (h0a : 0 ≤ a) (h0b : 0 ≤ b) (h0c : 0 ≤ c) (h0x : 0 ≤ x)
    (hxy : x ≤ y) (htop : y + a + b + c ≤ 100) :
    floatPct (x + a + b + c) 100 ≤ floatPct (y + a + b + c) 100 ∧
    floatPct (a + x + b + c) 100 ≤ floatPct (a + y + b + c) 100 ∧
    floatPct (a + b + x + c) 100 ≤ floatPct (a + b + y + c) 100 ∧
    floatPct (a + b + c + x) 100 ≤ floatPct (a + b + c + y) 100 := by
  refine ⟨?_, ?_, ?_, ?_⟩ <;>
    exact floatPct_mono_range _ _ (by omega) (by omega) (by omega)

/-- C9 witness: concrete sub-scores 4 ≤ 5 with the others 1, 2, 3. -/
theorem overall_pct_monotone_float_witness :
    floatPct (4 + 1 + 2 + 3) 100 ≤ floatPct (5 + 1 + 2 + 3) 100 ∧
    floatPct (1 + 4 + 2 + 3) 100 ≤ floatPct (1 + 5 + 2 + 3) 100 ∧
    floatPct (1 + 2 + 4 + 3) 100 ≤ floatPct (1 + 2 + 5 + 3) 100 ∧
    floatPct (1 + 2 + 3 + 4) 100 ≤ floatPct (1 + 2 + 3 + 5) 100 :=
  overall_pct_monotone_float 1 2 3 4 5 (by decide) (by decide) (by decide)
    (by decide) (by decide) (by decide)

/-- Lines that do not start with `## ` are appended, in order, to the open
section's accumulator. -/
theorem sectionsLoop_body (body : List String)
    (hb : ∀ x ∈ body, strStarts "## " x = false) :
    ∀ (rest acc : List String) (c : String) (d : List (String × String)),
      c ≠ "" →
      sectionsLoop (body ++ rest) (some c) acc d =
        sectionsLoop rest (some c) (acc ++ body) d := by
  induction body with
  | nil => intro rest acc c d _; simp
  | cons b bs ih =>
    intro rest acc c d hc
    have hb1 : strStarts "## " b = false := hb b (by simp)
    have hbs : ∀ x ∈ bs, strStarts "## " x = false := fun x hx => hb x (by simp [hx])
    simp only [List.cons_append, sectionsLoop, hb1, Bool.false_eq_true, if_false]
    split_ifs with hce
    · exact absurd hce hc
    · simp only [List.append_eq]
      rw [ih hbs rest (acc ++ [b]) c d hc, List.append_assoc]
      rfl

/-- C5 as amended: a named section opened by a `## ` heading line collects
exactly the lines up to the next `## ` heading or the end of the document
(both exclusive); lines starting with `# ` do not close it.  The loop
continues on the remainder with the finished section stored. -/
theorem section_content_runs_to_next_h2 (l : String) (body rest : List String)
    (hl : strStarts "## " l = true)
    (hn : strStrip (strDropN l 3) ≠ "")
    (hb : ∀ x ∈ body, strStarts "## " x = false)
    (hr : rest = [] ∨ ∃ h2 t, rest = h2 :: t ∧ strStarts "## " h2 = true) :
    sectionsLoop (l :: (body ++ rest)) none [] [] =
      sectionsLoop rest none [] [(strStrip (strDropN l 3), joinLines body)] := by
  have step1 :
      sectionsLoop (l :: (body ++ rest)) none [] [] =
        sectionsLoop (body ++ rest) (some (strStrip (strDropN l 3))) [] [] := by
    simp [sectionsLoop, hl, sflush]
  rw [step1, sectionsLoop_body body hb rest [] (strStrip (strDropN l 3)) [] hn]
  rcases hr with hnil | ⟨h2, t, hrt, hh2⟩
  · subst hnil
    simp [sectionsLoop, sflush, hn, dinsert]
  · subst hrt
    simp [sectionsLoop, hh2, sflush, hn, dinsert]

/-- C5 witness: section `A` followed by a plain line, a top-level heading
line and a terminating `## B` heading: the content of `A` is the two lines
before `## B`, including the `# T` line. -/
theorem section_content_runs_to_next_h2_witness :
    sectionsLoop ("## A" :: (["b", "# T"] ++ ["## B", "c"])) none [] [] =
      sectionsLoop ["## B", "c"] none []
        [(strStrip (strDropN "## A" 3), joinLines ["b", "# T"])] :=
  section_content_runs_to_next_h2 "## A" ["b", "# T"] ["## B", "c"]
    (by decide) (by decide) (by decide)
    (Or.inr ⟨"## B", ["c"], rfl, by decide⟩)

/-- The imperative-voice suggestion can never coincide with the assets
suggestion: its fixed intro alone is already longer. -/
theorem impSugg_ne_assets (x : String) : impSuggIntro ++ x ≠ assetsEmptySugg := by
  intro h
  have hd : impSuggIntro.data ++ x.data = assetsEmptySugg.data := congrArg String.data h
  have hl := congrArg List.length hd
  rw [List.length_append] at hl
  have h1 : impSuggIntro.data.length = 59 := by decide
  have h2 : assetsEmptySugg.data.length = 49 := by decide
  omega

/-- The bold-formatting suggestion can never coincide with the assets
suggestion: its fixed intro and outro are together already longer. -/
theorem boldSugg_ne_assets (x : String) :
    boldSuggIntro ++ x ++ boldSuggOutro ≠ assetsEmptySugg := by
  intro h
  have hd : (boldSuggIntro.data ++ x.data) ++ boldSuggOutro.data = assetsEmptySugg.data :=
    congrArg String.data h
  have hl := congrArg List.length hd
  rw [List.length_append, List.length_append] at hl
  have h1 : boldSuggIntro.data.length = 25 := by decide
  have h2 : boldSuggOutro.data.length = 47 := by decide
  have h3 : assetsEmptySugg.data.length = 49 := by decide
  omega

/-- C8: when the `assets/` companion directory exists and contains exactly
one file named `README.md`, `SkillForge.lint` emits the
empty-or-placeholder assets suggestion exactly once, whatever the document
content and the other companion directories contain. -/
theorem assets_placeholder_single_warning (content : String)
    (sdir rdir : Option (List String)) :
    (lintSuggestions content ⟨sdir, rdir, some ["README.md"]⟩).count assetsEmptySugg
      = 1 := by
  unfold lintSuggestions
  dsimp only
  rw [List.count_append, List.count_append, List.count_append, List.count_append]
  have hassets :
      (if ([("README.md" : String)].isEmpty ||
            ([("README.md" : String)].length = 1 &&
             [("README.md" : String)].headD "" = "README.md")) = true then
        [assetsEmptySugg] else []).count assetsEmptySugg = 1 := by decide
  have h1 : ∀ y : String, (List.count assetsEmptySugg [impSuggIntro ++ y]) = 0 := by
    intro y
    rw [List.count_eq_zero]
    intro hmem
    rw [List.mem_singleton] at hmem
    exact impSugg_ne_assets y hmem.symm
  have h2 : ∀ y : String,
      (List.count assetsEmptySugg [boldSuggIntro ++ y ++ boldSuggOutro]) = 0 := by
    intro y
    rw [List.count_eq_zero]
    intro hmem
    rw [List.mem_singleton] at hmem
    exact boldSugg_ne_assets y hmem.symm
  split_ifs <;>
    simp_all [List.count_cons, List.count_nil, scriptsEmptySugg, refsEmptySugg,
      assetsEmptySugg] <;>
    first
      | rfl
      | (cases sdir <;> cases rdir <;> simp_all [List.count_cons, List.count_nil] <;>
          split_ifs <;> simp_all [List.count_cons, List.count_nil])
